import Mathlib

/-!
Shallow embedding of the tool layer and orchestration loop of the
RAG chatbot (src/backend/search_tools.py and src/backend/ai_generator.py).

Python conventions mirrored here:
* `None` becomes `Option.none`; an optional value carried by a dict key
  becomes an `Option` field (`none` = key absent / value `None`).
* Python truthiness of an optional string / int is made explicit
  (`truthyOptStr`, `truthyOptInt`): `None`, `""` and `0` are falsy.
* A raised exception is `Except.error msg`; code that catches exceptions
  pattern-matches on it.
* Float distance scores are embedded as rationals (`ℚ`); the comparison
  `distance > 1.8` in the source is the strict order on ℚ.
* Mutation of `self.last_sources` is embedded by explicit state passing:
  a method that may assign it takes the current value and returns the new
  one alongside its string result.
-/

namespace RagSpec

/-- Python truthiness of an `Optional[str]`: `None` and `""` are falsy. -/
def truthyOptStr : Option String → Bool
  | none => false
  | some s => !(s = "")

/-- Python truthiness of an `Optional[int]`: `None` and `0` are falsy. -/
def truthyOptInt : Option Int → Bool
  | none => false
  | some n => !(n = 0)

/-- A provenance ("source") record: `{"text": ..., "link": ...}` as built by
the tools in search_tools.py. -/
structure Source where
  text : String
  link : Option String
deriving DecidableEq, Repr

/-- Metadata dict of one content chunk, as consumed by
`CourseSearchTool._format_results`: `meta.get('course_title', 'unknown')`
and `meta.get('lesson_number')`. `none` models an absent key (or an
explicit `None` value, which `.get` does not distinguish). -/
structure ChunkMeta where
  course_title : Option String
  lesson_number : Option Int
deriving DecidableEq, Repr

/-- Modelled from the spec: `SearchResults` lives in vector_store.py, which is
not part of the analysed sources; its shape is fixed by spec §3 ("ordered
sequence of (document_text, metadata) pairs plus parallel distance scores, or
an error string") and by the keyword constructions in the repository's tests. -/
structure SearchResults where
  documents : List String
  metadata : List ChunkMeta
  distances : List ℚ
  error : Option String
deriving DecidableEq, Repr

/-- Modelled from the spec: `SearchResults.is_empty` is defined in the absent
vector_store.py; spec §3 says "Empty means zero documents" and the tests
treat `documents=[]` (no error) as the empty result set. -/
def SearchResults.is_empty (r : SearchResults) : Bool :=
  r.documents.isEmpty

/-- The slice of the `VectorStore` interface used by `CourseSearchTool`:
`search`, `get_lesson_link`, `get_course_link` (spec §6 consumed
capability). The behaviour is an arbitrary parameter of the theorems. -/
structure SearchStore where
  search : String → Option String → Option Int → SearchResults
  get_lesson_link : String → Int → Option String
  get_course_link : String → Option String

/-- One iteration of the loop body of `CourseSearchTool._format_results`:
builds the labelled block `header + "\n" + doc` and the source record for a
single (document, metadata) pair. -/
def format_one (store : SearchStore) (p : String × ChunkMeta) : String × Source :=
  let course_title := p.2.course_title.getD "unknown"
  let suffix :=
    match p.2.lesson_number with
    | some n => " - Lesson " ++ toString n
    | none => ""
  let header := "[" ++ course_title ++ suffix ++ "]"
  let source_text := course_title ++ suffix
  let lesson_link :=
    match p.2.lesson_number with
    | some n => store.get_lesson_link course_title n
    | none =>
      if course_title = "unknown" then none
      else store.get_course_link course_title
  (header ++ "\x0a" ++ p.1, ⟨source_text, lesson_link⟩)

/-- `CourseSearchTool._format_results`: zips documents with metadata, formats
each pair, joins the blocks with double newlines, and returns the new value
of `self.last_sources` (the assignment `self.last_sources = sources`). -/
def format_results (store : SearchStore) (results : SearchResults) :
    String × List Source :=
  let pairs := results.documents.zip results.metadata
  let formatted := pairs.map (fun p => (format_one store p).1)
  let sources := pairs.map (fun p => (format_one store p).2)
  (String.intercalate "\x0a\x0a" formatted, sources)

/-- `CourseSearchTool.execute(query, course_name, lesson_number)`.
State passing: takes the current `self.last_sources` and returns
(result string, new `self.last_sources`). The `if results.error:` and the
`if course_name:` / `if lesson_number:` guards are Python truthiness. -/
def course_search_execute (store : SearchStore) (query : String)
    (course_name : Option String) (lesson_number : Option Int)
    (last_sources : List Source) : String × List Source :=
  let results := store.search query course_name lesson_number
  if truthyOptStr results.error then
    (results.error.getD "", last_sources)
  else if results.is_empty then
    let filter_info :=
      (if truthyOptStr course_name then
        " in course \x27" ++ course_name.getD "" ++ "\x27"
      else "")
      ++
      (if truthyOptInt lesson_number then
        " in lesson " ++ toString (lesson_number.getD 0)
      else "")
    ("No relevant content found" ++ filter_info ++ ".", last_sources)
  else
    format_results store results

/-! Course name resolver and outline tool (`CourseOutlineTool`). -/

/-- One entry of the parsed lesson list; `lesson.get('lesson_number', 0)` and
`lesson.get('lesson_title', 'Untitled')` read it with defaults, so absent
keys are `none`. -/
structure LessonEntry where
  lesson_number : Option Int
  lesson_title : Option String
deriving DecidableEq, Repr

/-- Outcome of `json.loads` on the stored `lessons_json` string: either the
parsed lesson list, or a raised exception (malformed JSON, or a JSON value
that is not a list of dicts) with its message. -/
inductive JsonParse where
  | parsed (lessons : List LessonEntry)
  | malformed (msg : String)
deriving DecidableEq, Repr

/-- Catalog metadata dict as read by `CourseOutlineTool.execute` and
`_resolve_course_name`: each key read with `.get` takes a default when
absent (`none`), while the plain subscript `['title']` in the resolver
raises `KeyError` when `title = none`. `lessons_json` is carried as its
`json.loads` outcome. -/
structure EntryMeta where
  title : Option String
  course_link : Option String
  instructor : Option String
  lessons_json : Option JsonParse
deriving DecidableEq, Repr

/-- The `'distances'` field of a chroma `course_catalog.query` result dict:
the key may be missing entirely (plain subscript raises `KeyError`), may be
`None` (falsy), or may hold a list of per-query distance lists. -/
inductive DistField where
  | absent
  | null
  | val (d : List (List ℚ))
deriving DecidableEq, Repr

/-- Result dict of `course_catalog.query(query_texts=[...], n_results=1)` as
consumed by `CourseOutlineTool._resolve_course_name`: parallel outer lists
(one inner list per query text) of documents and metadatas, plus the
`'distances'` field. -/
structure CatalogQueryResult where
  documents : List (List String)
  metadatas : List (List EntryMeta)
  distances : DistField

/-- Outcome of `course_catalog.get(ids=[...])` as consumed by
`CourseOutlineTool.execute`: a raised exception, a falsy result
(`not results`), or a dict whose `.get('metadatas')` yields `none`
(key absent or `None`) or a list of metadata dicts. -/
inductive GetOutcome where
  | raises (msg : String)
  | falsy
  | found (metadatas : Option (List EntryMeta))

/-- The slice of the store used by `CourseOutlineTool`: the catalog `query`
call of `_resolve_course_name` (which may itself raise) and the catalog
`get` call of `execute`. -/
structure OutlineStore where
  catalog_query : String → Except String CatalogQueryResult
  catalog_get : String → GetOutcome

/-- Body of the `try:` block of `CourseOutlineTool._resolve_course_name`,
with raised exceptions as `Except.error`:
`if results['documents'][0] and results['metadatas'][0]:` (subscript `[0]`
on an empty outer list raises `IndexError`; the inner lists are tested for
truthiness), then `if results['distances'] and results['distances'][0]:`
(subscript on a missing `'distances'` key raises `KeyError`; `None` and
empty lists are falsy) guards `distance > 1.8 → return None`, and finally
`return results['metadatas'][0][0]['title']`. -/
def resolve_core (res : CatalogQueryResult) : Except String (Option String) :=
  match res.documents, res.metadatas with
  | docs0 :: _, metas0 :: _ =>
    if docs0.isEmpty || metas0.isEmpty then
      Except.ok none
    else
      let top_title : Except String (Option String) :=
        match metas0 with
        | [] => Except.error "IndexError"
        | m :: _ =>
          match m.title with
          | some t => Except.ok (some t)
          | none => Except.error "KeyError: title"
      match res.distances with
      | DistField.absent => Except.error "KeyError: distances"
      | DistField.null => top_title
      | DistField.val [] => top_title
      | DistField.val (d0 :: _) =>
        match d0 with
        | [] => top_title
        | dist :: _ =>
          if dist > (1.8 : ℚ) then Except.ok none else top_title
  | _, _ => Except.error "IndexError"

/-- `CourseOutlineTool._resolve_course_name`: runs the catalog query and the
core logic inside `try: ... except Exception: ... return None`, so every
raised exception is swallowed into `None`. -/
def resolve_course_name (store : OutlineStore) (course_name : String) :
    Option String :=
  match store.catalog_query course_name with
  | Except.error _ => none
  | Except.ok res =>
    match resolve_core res with
    | Except.ok r => r
    | Except.error _ => none

/-- `CourseOutlineTool.execute(course_name)` with `self.last_sources` passed
as explicit state. The guard `if not resolved_title:` is Python truthiness
on an `Optional[str]`: both `None` and an empty-string resolved title count
as resolution failure and return the no-course-found string without
touching the catalog. Otherwise the `try:` block around the catalog fetch
and lesson parsing turns any raised exception into the error-retrieving
string; missing or empty metadata returns the could-not-retrieve string; on
success the outline is rendered and `self.last_sources` is set to the
single outline source. -/
def outline_execute (store : OutlineStore) (course_name : String)
    (last_sources : List Source) : String × List Source :=
  match resolve_course_name store course_name with
  | none =>
    ("No course found matching \x27" ++ course_name ++ "\x27", last_sources)
  | some resolved =>
    if resolved = "" then
      ("No course found matching \x27" ++ course_name ++ "\x27", last_sources)
    else
    match store.catalog_get resolved with
    | GetOutcome.raises e =>
      ("Error retrieving course outline: " ++ e, last_sources)
    | GetOutcome.falsy =>
      ("Could not retrieve outline for course \x27" ++ course_name ++ "\x27",
        last_sources)
    | GetOutcome.found none =>
      ("Could not retrieve outline for course \x27" ++ course_name ++ "\x27",
        last_sources)
    | GetOutcome.found (some []) =>
      ("Could not retrieve outline for course \x27" ++ course_name ++ "\x27",
        last_sources)
    | GetOutcome.found (some (metadata :: _)) =>
      let course_title := metadata.title.getD "Unknown Course"
      let course_link := metadata.course_link.getD ""
      let instructor := metadata.instructor.getD ""
      match metadata.lessons_json.getD (JsonParse.parsed []) with
      | JsonParse.malformed e =>
        ("Error retrieving course outline: " ++ e, last_sources)
      | JsonParse.parsed lessons =>
        let outline :=
          ["**Course Title:** " ++ course_title]
          ++ (if course_link = "" then []
              else ["**Course Link:** " ++ course_link])
          ++ (if instructor = "" then []
              else ["**Instructor:** " ++ instructor])
          ++ ["**Total Lessons:** " ++ toString lessons.length,
              "\x0a**Lessons:**"]
          ++ lessons.map (fun l =>
              "  - Lesson " ++ toString (l.lesson_number.getD 0) ++ ": "
                ++ l.lesson_title.getD "Untitled")
        let new_sources : List Source :=
          [⟨course_title ++ " - Course Outline",
            if course_link = "" then none else some course_link⟩]
        (String.intercalate "\x0a" outline, new_sources)

/-! Tool manager (`ToolManager`). Its `self.tools` dict (insertion ordered,
names unique because `register_tool` overwrites) is embedded as a list in
registration order; `hasattr(tool, 'last_sources')` becomes the
`tracks_sources` flag; a tool's `execute(**kwargs)` is its `exec`
function over the keyword arguments. -/

/-- A registered tool as seen by `ToolManager`: its definition name, its
`execute` method over keyword arguments, and its `last_sources` attribute
when present (`tracks_sources = hasattr(tool, 'last_sources')`). -/
structure ManagedTool where
  name : String
  exec : List (String × String) → String
  tracks_sources : Bool
  last_sources : List Source

/-- `ToolManager.execute_tool(tool_name, **kwargs)`: unknown names return the
sentinel string instead of raising; known names dispatch to the tool. -/
def tool_manager_execute_tool (tools : List ManagedTool) (tool_name : String)
    (kwargs : List (String × String)) : String :=
  match tools.find? (fun t => t.name = tool_name) with
  | none => "Tool \x27" ++ tool_name ++ "\x27 not found"
  | some t => t.exec kwargs

/-- `ToolManager.get_last_sources()`: returns the first registered tool whose
`last_sources` attribute exists and is truthy (non-empty), else `[]`. -/
def tool_manager_get_last_sources (tools : List ManagedTool) : List Source :=
  match tools.find? (fun t => t.tracks_sources && !t.last_sources.isEmpty) with
  | some t => t.last_sources
  | none => []

/-- `ToolManager.reset_sources()`: sets `last_sources = []` on every tool
that has the attribute. -/
def tool_manager_reset_sources (tools : List ManagedTool) : List ManagedTool :=
  tools.map (fun t =>
    if t.tracks_sources then { t with last_sources := [] } else t)

/-! Orchestration loop (`AIGenerator` in ai_generator.py). -/

/-- One block of an API response's `content` list. A text block uses `text`;
a tool-use block uses `id`, `name` and `input` and has `type = "tool_use"`.
Fields irrelevant to a block's type default to the empty value. -/
structure ContentBlock where
  type : String
  id : String
  name : String
  input : List (String × String)
  text : String
deriving DecidableEq, Repr

/-- An Anthropic API response as consumed by `generate_response`: a stop
reason (compared against the string `"tool_use"`) and the content list. -/
structure APIResponse where
  stop_reason : String
  content : List ContentBlock
deriving DecidableEq, Repr

/-- `response.content[0].text`; `none` models the `IndexError` the source
would raise on an empty content list. -/
def APIResponse.firstText (r : APIResponse) : Option String :=
  r.content.head?.map (fun b => b.text)

/-- One `{"type": "tool_result", "tool_use_id": ..., "content": ...}` payload
built by `_execute_tools_and_update_messages`. -/
structure ToolResult where
  type : String
  tool_use_id : String
  content : String
deriving DecidableEq, Repr

/-- Content of one message in the accumulated history: the initial user query
is a plain string, the echoed assistant turn is the raw content-block list,
and the per-round tool results form a list of tool-result payloads. -/
inductive MsgContent where
  | text (s : String)
  | blocks (bs : List ContentBlock)
  | results (rs : List ToolResult)
deriving DecidableEq, Repr

/-- One message of the accumulated history: a role and its content. -/
structure Message where
  role : String
  content : MsgContent
deriving DecidableEq, Repr

/-- The tool-use blocks of a response's content, in order — the blocks the
`for content_block in response.content: if content_block.type == "tool_use"`
loop dispatches. -/
def tool_use_blocks (content : List ContentBlock) : List ContentBlock :=
  content.filter (fun cb => cb.type = "tool_use")

/-- The tool-result payload built for one tool-use block: the dispatcher
(`tool_manager.execute_tool`, embedded as a function that may raise, i.e.
return `Except.error`) is called with the block's name and input; a raised
exception is caught and becomes the "Tool execution error: " payload. -/
def tool_result_for (dispatch : String → List (String × String) → Except String String)
    (cb : ContentBlock) : ToolResult :=
  match dispatch cb.name cb.input with
  | Except.ok r => ⟨"tool_result", cb.id, r⟩
  | Except.error e => ⟨"tool_result", cb.id, "Tool execution error: " ++ e⟩

/-- `AIGenerator._execute_tools_and_update_messages`: appends the raw
assistant response, dispatches every tool-use block in order (each call
fault-isolated), and appends the collected results as one user message
(only when at least one result was produced). -/
def execute_tools_and_update_messages
    (dispatch : String → List (String × String) → Except String String)
    (respContent : List ContentBlock) (messages : List Message) :
    List Message :=
  let updated := messages ++ [⟨"assistant", MsgContent.blocks respContent⟩]
  let tool_results := (tool_use_blocks respContent).map (tool_result_for dispatch)
  if tool_results.isEmpty then updated
  else updated ++ [⟨"user", MsgContent.results tool_results⟩]

/-- The `while current_round < max_rounds:` loop of
`AIGenerator.generate_response`, abstracted over the sequence of model
responses (`respond i` is the response to the i-th API call issued).
Arguments: `has_tool_manager` is the truthiness of `tool_manager`,
`tools_truthy` the truthiness of `tools` (schemas are attached to an
in-loop call exactly when it holds, `_make_api_call`), and the second
`Nat` is the remaining loop iterations (`max_rounds - current_round`).
Returns the list of issued calls — `true` for a call with tool schemas
attached — and the returned text (`_make_final_call` attaches no tools). -/
def generate_response_loop (respond : Nat → APIResponse)
    (has_tool_manager tools_truthy : Bool) :
    Nat → Nat → List Bool × Option String
  | i, 0 => ([false], (respond i).firstText)
  | i, fuel + 1 =>
    let r := respond i
    if r.stop_reason = "tool_use" && has_tool_manager then
      let rest :=
        generate_response_loop respond has_tool_manager tools_truthy (i + 1) fuel
      (tools_truthy :: rest.1, rest.2)
    else
      ([tools_truthy], r.firstText)

/-- `AIGenerator.generate_response(..., max_rounds)`, observed through the
calls it issues: starts the round loop at call index 0 with
`current_round = 0`. -/
def generate_response (respond : Nat → APIResponse)
    (has_tool_manager tools_truthy : Bool) (max_rounds : Nat) :
    List Bool × Option String :=
  generate_response_loop respond has_tool_manager tools_truthy 0 max_rounds

/-! Theorems for the claims. -/

/-- C2 (amended): for every candidate string whose catalog query returns a
top result carrying a distance score, the resolver returns no-match when the
distance strictly exceeds 1.8 and returns the top result's course title when
the distance is less than or equal to 1.8 — in particular a distance exactly
at the threshold is a match, not a no-match. -/
theorem c2_resolver_threshold (store : OutlineStore) (cand : String)
    (docs0 : List String) (docsRest : List (List String))
    (m : EntryMeta) (ms : List EntryMeta) (metasRest : List (List EntryMeta))
    (dist : ℚ) (dRest : List ℚ) (dsRest : List (List ℚ)) (t : String)
    (hq : store.catalog_query cand =
      Except.ok ⟨docs0 :: docsRest, (m :: ms) :: metasRest,
        DistField.val ((dist :: dRest) :: dsRest)⟩)
    (hd : docs0 ≠ []) (ht : m.title = some t) :
    (dist > (1.8 : ℚ) → resolve_course_name store cand = none)
    ∧ (dist ≤ (1.8 : ℚ) → resolve_course_name store cand = some t) := by
  cases docs0 with
  | nil => exact absurd rfl hd
  | cons x xs =>
    constructor
    · intro hgt
      simp [resolve_course_name, hq, resolve_core, ht, hgt]
    · intro hle
      have hng : ¬ dist > (1.8 : ℚ) := not_lt.mpr hle
      simp [resolve_course_name, hq, resolve_core, ht, hng]

/-- Concrete catalog behaviour used to exercise `c2_resolver_threshold`. -/
def c2_store : OutlineStore :=
  { catalog_query := fun _ => Except.ok
      { documents := [["Python Programming Basics"]],
        metadatas := [[⟨some "Python Programming Basics", none, none, none⟩]],
        distances := DistField.val [[(1 : ℚ) / 10]] },
    catalog_get := fun _ => GetOutcome.falsy }

/-- Witness for `c2_resolver_threshold` at a concrete below-threshold input. -/
theorem c2_resolver_threshold_witness :
    resolve_course_name c2_store "Pyth" = some "Python Programming Basics" :=
  (c2_resolver_threshold c2_store "Pyth" _ _ _ _ _ _ _ _
      "Python Programming Basics" rfl (by decide) rfl).2 (by norm_num)

/-- Concrete catalog behaviour whose top result sits exactly at the 1.8
threshold. -/
def c2_boundary_store : OutlineStore :=
  { catalog_query := fun _ => Except.ok
      { documents := [["Python Programming Basics"]],
        metadatas := [[⟨some "Python Programming Basics", none, none, none⟩]],
        distances := DistField.val [[(1.8 : ℚ)]] },
    catalog_get := fun _ => GetOutcome.falsy }

/-- C2 counterexample: at a distance exactly equal to the threshold the
resolver returns the top result's title — the claim's "exactly equal is a
no-match" is false on the code, whose guard is the strict `distance > 1.8`. -/
theorem c2_boundary_counterexample :
    resolve_course_name c2_boundary_store "Python"
      = some "Python Programming Basics"
    ∧ some "Python Programming Basics" ≠ (none : Option String) := by
  constructor
  · simp [resolve_course_name, c2_boundary_store, resolve_core]
  · simp

/-- C9 (amended): when the catalog query yields a non-empty top document list
and metadata, a `'distances'` value that is `None` (falsy), an empty list, or
a list with an empty first entry skips the 1.8 threshold gate entirely and
the resolver returns the top result's title; an absent `'distances'` key,
however, raises `KeyError` inside the `try` block, which is swallowed, so the
resolver returns no-match rather than the title. -/
theorem c9_distances_gate_skipped (store : OutlineStore) (cand : String)
    (docs0 : List String) (docsRest : List (List String))
    (m : EntryMeta) (ms : List EntryMeta) (metasRest : List (List EntryMeta))
    (df : DistField) (t : String)
    (hq : store.catalog_query cand =
      Except.ok ⟨docs0 :: docsRest, (m :: ms) :: metasRest, df⟩)
    (hd : docs0 ≠ []) (ht : m.title = some t) :
    (df = DistField.null → resolve_course_name store cand = some t)
    ∧ (df = DistField.val [] → resolve_course_name store cand = some t)
    ∧ (∀ rest, df = DistField.val ([] :: rest) →
        resolve_course_name store cand = some t)
    ∧ (df = DistField.absent → resolve_course_name store cand = none) := by
  cases docs0 with
  | nil => exact absurd rfl hd
  | cons x xs =>
    refine ⟨?_, ?_, ?_, ?_⟩
    · intro h
      subst h
      simp [resolve_course_name, hq, resolve_core, ht]
    · intro h
      subst h
      simp [resolve_course_name, hq, resolve_core, ht]
    · intro rest h
      subst h
      simp [resolve_course_name, hq, resolve_core, ht]
    · intro h
      subst h
      simp [resolve_course_name, hq, resolve_core]

/-- Concrete catalog behaviour returning a top result but no `'distances'`
key at all. -/
def c9_absent_store : OutlineStore :=
  { catalog_query := fun _ => Except.ok
      { documents := [["MCP course doc"]],
        metadatas := [[⟨some "MCP", none, none, none⟩]],
        distances := DistField.absent },
    catalog_get := fun _ => GetOutcome.falsy }

/-- C9 counterexample: with the `'distances'` key absent (and a non-empty top
document list and metadata) the resolver returns no-match, not the top
result's title as the claim states for the "absent" case. -/
theorem c9_absent_counterexample :
    resolve_course_name c9_absent_store "MCP" = none
    ∧ (none : Option String) ≠ some "MCP" := by
  constructor
  · simp [resolve_course_name, c9_absent_store, resolve_core]
  · simp

/-- Witness for `c9_distances_gate_skipped` at a concrete falsy-`None`
input. -/
theorem c9_distances_gate_skipped_witness :
    resolve_course_name
      { catalog_query := fun _ => Except.ok
          { documents := [["doc"]],
            metadatas := [[⟨some "MCP", none, none, none⟩]],
            distances := DistField.null },
        catalog_get := fun _ => GetOutcome.falsy } "MCP" = some "MCP" :=
  (c9_distances_gate_skipped _ "MCP" _ _ _ _ _ _ "MCP"
      rfl (by decide) rfl).1 rfl

/-- C4: `CourseOutlineTool.execute` is total (never raises — every raised
exception is consumed inside the definition): a falsy resolution result
(`None` or an empty-string title, the `if not resolved_title:` guard),
including any exception raised by the index during resolution (swallowed by
the resolver), yields the no-course-found string; for a truthy resolved
title, a falsy `get` result or missing/empty catalog metadata yields the
could-not-retrieve string; and any exception during the metadata fetch or
lesson-list parsing yields the "Error retrieving course outline: " string. -/
theorem c4_outline_never_raises (store : OutlineStore) (course_name : String)
    (st : List Source) :
    (truthyOptStr (resolve_course_name store course_name) = false →
      (outline_execute store course_name st).1
        = "No course found matching \x27" ++ course_name ++ "\x27")
    ∧ (∀ e, store.catalog_query course_name = Except.error e →
      (outline_execute store course_name st).1
        = "No course found matching \x27" ++ course_name ++ "\x27")
    ∧ (∀ t e, resolve_course_name store course_name = some t → t ≠ "" →
        store.catalog_get t = GetOutcome.raises e →
      (outline_execute store course_name st).1
        = "Error retrieving course outline: " ++ e)
    ∧ (∀ t, resolve_course_name store course_name = some t → t ≠ "" →
        (store.catalog_get t = GetOutcome.falsy
          ∨ store.catalog_get t = GetOutcome.found none
          ∨ store.catalog_get t = GetOutcome.found (some [])) →
      (outline_execute store course_name st).1
        = "Could not retrieve outline for course \x27" ++ course_name ++ "\x27")
    ∧ (∀ t m ms e, resolve_course_name store course_name = some t → t ≠ "" →
        store.catalog_get t = GetOutcome.found (some (m :: ms)) →
        m.lessons_json = some (JsonParse.malformed e) →
      (outline_execute store course_name st).1
        = "Error retrieving course outline: " ++ e) := by
  refine ⟨?_, ?_, ?_, ?_, ?_⟩
  · intro hres
    cases hr : resolve_course_name store course_name with
    | none => simp [outline_execute, hr]
    | some t =>
      rw [hr] at hres
      have ht : t = "" := by
        by_contra hc
        simp [truthyOptStr, hc] at hres
      subst ht
      simp [outline_execute, hr]
  · intro e he
    have hres : resolve_course_name store course_name = none := by
      simp [resolve_course_name, he]
    simp [outline_execute, hres]
  · intro t e hres hne hget
    simp [outline_execute, hres, hne, hget]
  · intro t hres hne hget
    rcases hget with hget | hget | hget <;>
      simp [outline_execute, hres, hne, hget]
  · intro t m ms e hres hne hget hjson
    simp [outline_execute, hres, hne, hget, hjson]

/-- Concrete store whose catalog query raises, for `c4_outline_never_raises`:
the resolution exception is swallowed and surfaces as no-course-found. -/
def c4_raising_store : OutlineStore :=
  { catalog_query := fun _ => Except.error "chroma connection lost",
    catalog_get := fun _ => GetOutcome.raises "unreachable" }

/-- Witness for `c4_outline_never_raises` at a concrete store whose index
raises during resolution. -/
theorem c4_outline_never_raises_witness :
    (outline_execute c4_raising_store "MCP" []).1
      = "No course found matching \x27" ++ "MCP" ++ "\x27" :=
  (c4_outline_never_raises c4_raising_store "MCP" []).2.1
    "chroma connection lost" rfl

/-- C10: the search tool's `last_sources` is assigned only on the successful
formatting path — the verbatim-error return and the no-relevant-content
return leave it unchanged — and likewise `CourseOutlineTool.execute` leaves
its `last_sources` unchanged on every failure path (falsy resolution,
raising fetch, missing/empty metadata, malformed lesson JSON) and assigns
exactly the single outline source on its success path, which is only
reached with a truthy (non-empty) resolved title. -/
theorem c10_sources_only_on_success (store : SearchStore) (q : String)
    (cn : Option String) (ln : Option Int) (st : List Source)
    (ostore : OutlineStore) (oname : String) (ost : List Source) :
    (truthyOptStr (store.search q cn ln).error = true →
      (course_search_execute store q cn ln st).2 = st)
    ∧ (truthyOptStr (store.search q cn ln).error = false →
        (store.search q cn ln).is_empty = true →
      (course_search_execute store q cn ln st).2 = st)
    ∧ (truthyOptStr (store.search q cn ln).error = false →
        (store.search q cn ln).is_empty = false →
      (course_search_execute store q cn ln st).2
        = (format_results store (store.search q cn ln)).2)
    ∧ (truthyOptStr (resolve_course_name ostore oname) = false →
      (outline_execute ostore oname ost).2 = ost)
    ∧ (∀ t e, resolve_course_name ostore oname = some t → t ≠ "" →
        ostore.catalog_get t = GetOutcome.raises e →
      (outline_execute ostore oname ost).2 = ost)
    ∧ (∀ t, resolve_course_name ostore oname = some t → t ≠ "" →
        (ostore.catalog_get t = GetOutcome.falsy
          ∨ ostore.catalog_get t = GetOutcome.found none
          ∨ ostore.catalog_get t = GetOutcome.found (some [])) →
      (outline_execute ostore oname ost).2 = ost)
    ∧ (∀ t m ms e, resolve_course_name ostore oname = some t → t ≠ "" →
        ostore.catalog_get t = GetOutcome.found (some (m :: ms)) →
        m.lessons_json = some (JsonParse.malformed e) →
      (outline_execute ostore oname ost).2 = ost)
    ∧ (∀ t m ms lessons, resolve_course_name ostore oname = some t → t ≠ "" →
        ostore.catalog_get t = GetOutcome.found (some (m :: ms)) →
        m.lessons_json.getD (JsonParse.parsed []) = JsonParse.parsed lessons →
      (outline_execute ostore oname ost).2
        = [⟨(m.title.getD "Unknown Course") ++ " - Course Outline",
            if m.course_link.getD "" = "" then none
            else some (m.course_link.getD "")⟩]) := by
  refine ⟨?_, ?_, ?_, ?_, ?_, ?_, ?_, ?_⟩
  · intro herr
    simp [course_search_execute, herr]
  · intro herr hemp
    simp [course_search_execute, herr, hemp]
  · intro herr hemp
    simp [course_search_execute, herr, hemp]
  · intro hres
    cases hr : resolve_course_name ostore oname with
    | none => simp [outline_execute, hr]
    | some t =>
      rw [hr] at hres
      have ht : t = "" := by
        by_contra hc
        simp [truthyOptStr, hc] at hres
      subst ht
      simp [outline_execute, hr]
  · intro t e hres hne hget
    simp [outline_execute, hres, hne, hget]
  · intro t hres hne hget
    rcases hget with hget | hget | hget <;>
      simp [outline_execute, hres, hne, hget]
  · intro t m ms e hres hne hget hjson
    simp [outline_execute, hres, hne, hget, hjson]
  · intro t m ms lessons hres hne hget hjson
    simp [outline_execute, hres, hne, hget, hjson]

/-- Concrete store whose search returns a verbatim error, for
`c10_sources_only_on_success`. -/
def c10_err_store : SearchStore :=
  { search := fun _ _ _ =>
      { documents := [], metadata := [], distances := [],
        error := some "No course found matching \x27ZZZ\x27" },
    get_lesson_link := fun _ _ => none,
    get_course_link := fun _ => none }

/-- Witness for `c10_sources_only_on_success`: an error-path search leaves a
previously recorded source list untouched. -/
theorem c10_sources_only_on_success_witness :
    (course_search_execute c10_err_store "q" (some "ZZZ") none
        [⟨"Course A - Lesson 1", none⟩]).2
      = [⟨"Course A - Lesson 1", none⟩] :=
  (c10_sources_only_on_success c10_err_store "q" (some "ZZZ") none
      [⟨"Course A - Lesson 1", none⟩]
      { catalog_query := fun _ => Except.error "e",
        catalog_get := fun _ => GetOutcome.falsy } "x" []).1 (by decide)

/-- C5 (amended): `CourseSearchTool.execute` returns the result set's error
string verbatim when that error is truthy (non-null and non-empty); when the
error is falsy and the result set is empty it returns the
"No relevant content found" message, which mentions the course-name filter
exactly when a truthy (non-empty) course_name was supplied and the
lesson-number filter exactly when a truthy (non-zero) lesson_number was
supplied — a supplied empty course name or lesson number 0 is falsy in the
`if course_name:` / `if lesson_number:` guards and goes unmentioned. -/
theorem c5_error_verbatim_and_empty_message (store : SearchStore) (q : String)
    (cn : Option String) (ln : Option Int) (st : List Source) :
    (∀ e, (store.search q cn ln).error = some e → e ≠ "" →
      (course_search_execute store q cn ln st).1 = e)
    ∧ (truthyOptStr (store.search q cn ln).error = false →
        (store.search q cn ln).is_empty = true →
      (course_search_execute store q cn ln st).1
        = "No relevant content found"
          ++ (match cn with
              | some c => if c = "" then "" else " in course \x27" ++ c ++ "\x27"
              | none => "")
          ++ (match ln with
              | some n => if n = 0 then "" else " in lesson " ++ toString n
              | none => "")
          ++ ".") := by
  constructor
  · intro e he hne
    simp [course_search_execute, he, truthyOptStr, hne]
  · intro herr hemp
    simp only [course_search_execute, herr, hemp, Bool.false_eq_true,
      if_false, if_true]
    cases cn with
    | none =>
      cases ln with
      | none => simp [truthyOptStr, truthyOptInt]
      | some n =>
        by_cases hn : n = 0 <;>
          simp [truthyOptStr, truthyOptInt, hn]
    | some c =>
      cases ln with
      | none =>
        by_cases hc : c = "" <;>
          simp [truthyOptStr, truthyOptInt, hc]
      | some n =>
        by_cases hc : c = "" <;> by_cases hn : n = 0 <;>
          simp [truthyOptStr, truthyOptInt, hc, hn, String.append_assoc]

/-- Concrete store returning an empty, error-free result set, for the C5
counterexample and witness. -/
def c5_empty_store : SearchStore :=
  { search := fun _ _ _ =>
      { documents := [], metadata := [], distances := [], error := none },
    get_lesson_link := fun _ _ => none,
    get_course_link := fun _ => none }

/-- C5 counterexample: with lesson_number 0 supplied and an empty, error-free
result set, the message does not mention the lesson-number filter (`0` is
falsy in `if lesson_number:`), contradicting "mentions the lesson-number
filter exactly when lesson_number was supplied". -/
theorem c5_lesson_zero_counterexample :
    (course_search_execute c5_empty_store "q" none (some 0) []).1
      = "No relevant content found."
    ∧ "No relevant content found."
      ≠ "No relevant content found in lesson 0." := by
  constructor
  · rfl
  · decide

/-- Witness for `c5_error_verbatim_and_empty_message` at concrete supplied
filters. -/
theorem c5_error_verbatim_and_empty_message_witness :
    (course_search_execute c5_empty_store "q" (some "Python") (some 5) []).1
      = "No relevant content found"
        ++ (" in course \x27" ++ "Python" ++ "\x27")
        ++ (" in lesson " ++ toString (5 : Int)) ++ "." := by
  have h := (c5_error_verbatim_and_empty_message c5_empty_store "q"
      (some "Python") (some 5) []).2 (by decide) (by decide)
  simpa using h

/-- C6 (amended): on a non-empty result set whose error is null, execute
returns one block per zipped (document, metadata) pair of the form
`[<course title>` + optional ` - Lesson <n>` + `]`, followed by a single
newline (a line break, not a blank line) and the document text, blocks
joined by double newlines; and one provenance record per pair whose text is
the course title with the optional lesson suffix and whose link is the
lesson link when a lesson number is present, else the course-level link when
the metadata carries a known course title, else null. -/
theorem c6_format_blocks_and_sources (store : SearchStore) (q : String)
    (cn : Option String) (ln : Option Int) (st : List Source)
    (herr : (store.search q cn ln).error = none)
    (hne : (store.search q cn ln).is_empty = false)
    (_hlen : (store.search q cn ln).documents.length
      = (store.search q cn ln).metadata.length) :
    (course_search_execute store q cn ln st).1
      = String.intercalate "\x0a\x0a"
          (((store.search q cn ln).documents.zip
              (store.search q cn ln).metadata).map
            (fun p =>
              "[" ++ p.2.course_title.getD "unknown"
                ++ (match p.2.lesson_number with
                    | some n => " - Lesson " ++ toString n
                    | none => "")
                ++ "]" ++ "\x0a" ++ p.1))
    ∧ (course_search_execute store q cn ln st).2
      = (((store.search q cn ln).documents.zip
            (store.search q cn ln).metadata).map
          (fun p =>
            ⟨p.2.course_title.getD "unknown"
              ++ (match p.2.lesson_number with
                  | some n => " - Lesson " ++ toString n
                  | none => ""),
              match p.2.lesson_number with
              | some n => store.get_lesson_link (p.2.course_title.getD "unknown") n
              | none =>
                if p.2.course_title.getD "unknown" = "unknown" then none
                else store.get_course_link (p.2.course_title.getD "unknown")⟩)) := by
  have htr : truthyOptStr (store.search q cn ln).error = false := by
    simp [truthyOptStr, herr]
  constructor
  · simp [course_search_execute, htr, hne, format_results, format_one]
  · simp [course_search_execute, htr, hne, format_results, format_one]

/-- Concrete store returning a single titled, lesson-free document, for the
C6 counterexample and witness. -/
def c6_single_store : SearchStore :=
  { search := fun _ _ _ =>
      { documents := ["body text"],
        metadata := [⟨some "Course T", none⟩],
        distances := [(1 : ℚ) / 10], error := none },
    get_lesson_link := fun _ _ => none,
    get_course_link := fun _ => some "http://course-t" }

/-- C6 counterexample: the header is followed by a single newline and then
the document text — `"[Course T]\n" ++ "body text"` — not by a blank line
(which would require two newlines) as the claim states. -/
theorem c6_no_blank_line_counterexample :
    (course_search_execute c6_single_store "q" none none []).1
      = "[Course T]" ++ "\x0a" ++ "body text"
    ∧ "[Course T]" ++ "\x0a" ++ "body text"
      ≠ "[Course T]" ++ "\x0a\x0a" ++ "body text" := by
  constructor
  · rfl
  · decide

/-- Witness for `c6_format_blocks_and_sources` at a concrete one-result
store. -/
theorem c6_format_blocks_and_sources_witness :
    (course_search_execute c6_single_store "q" none none []).2
      = [⟨"Course T", some "http://course-t"⟩] := by
  have h := (c6_format_blocks_and_sources c6_single_store "q" none none []
      rfl rfl rfl).2
  simpa using h

/-- After `reset_sources`, no registered tool satisfies the
`hasattr and truthy last_sources` probe of `get_last_sources`. -/
theorem reset_sources_find_none (tools : List ManagedTool) :
    (tool_manager_reset_sources tools).find?
      (fun t => t.tracks_sources && !t.last_sources.isEmpty) = none := by
  induction tools with
  | nil => rfl
  | cons t ts ih =>
    simp only [tool_manager_reset_sources, List.map_cons, List.find?_cons]
    by_cases htr : t.tracks_sources
    · simpa [htr, tool_manager_reset_sources] using ih
    · simp only [htr, if_false]
      have : (t.tracks_sources && !t.last_sources.isEmpty) = false := by
        simp [htr]
      simpa [this, tool_manager_reset_sources] using ih

/-- C7 (amended): when a second successive `execute()` on a
`CourseSearchTool` instance reaches the successful formatting path, only
that second call's provenance records are retrievable afterwards — they
replace the prior state, never append to it, whatever the first call did —
and after `ToolManager.reset_sources()` every tool that tracks sources has
empty provenance and `get_last_sources()` returns the empty list. (When the
second call returns an error or no-content message it assigns nothing, so
the prior sources survive; the unconditional claim fails there.) -/
theorem c7_overwrite_and_reset (store : SearchStore)
    (q1 q2 : String) (cn1 cn2 : Option String) (ln1 ln2 : Option Int)
    (st0 : List Source) (tools : List ManagedTool)
    (herr : truthyOptStr (store.search q2 cn2 ln2).error = false)
    (hne : (store.search q2 cn2 ln2).is_empty = false) :
    (course_search_execute store q2 cn2 ln2
        (course_search_execute store q1 cn1 ln1 st0).2).2
      = (format_results store (store.search q2 cn2 ln2)).2
    ∧ tool_manager_get_last_sources (tool_manager_reset_sources tools) = []
    ∧ (∀ t ∈ tool_manager_reset_sources tools,
        t.tracks_sources = true → t.last_sources = []) := by
  refine ⟨?_, ?_, ?_⟩
  · simp [course_search_execute, herr, hne]
  · simp [tool_manager_get_last_sources, reset_sources_find_none]
  · intro t ht htr
    simp only [tool_manager_reset_sources, List.mem_map] at ht
    obtain ⟨u, _, hu⟩ := ht
    by_cases hutr : u.tracks_sources
    · simp [hutr] at hu
      rw [← hu]
    · simp [hutr] at hu
      rw [← hu] at htr
      exact absurd htr (by simp [hutr])

/-- Concrete store for the C7 counterexample and witness: query "one"
succeeds with a single source, query "two" fails with an error. -/
def c7_store : SearchStore :=
  { search := fun q _ _ =>
      if q = "one" then
        { documents := ["d1"], metadata := [⟨some "Course A", some 1⟩],
          distances := [(1 : ℚ) / 10], error := none }
      else
        { documents := [], metadata := [], distances := [],
          error := some "index unavailable" },
    get_lesson_link := fun _ _ => some "http://a/1",
    get_course_link := fun _ => none }

/-- C7 counterexample: a successful execute followed by an error execute on
the same instance leaves the FIRST call's source retrievable — after the
second call it is not true that only the second call's provenance records
(none were produced) are retrievable. -/
theorem c7_stale_sources_counterexample :
    (course_search_execute c7_store "two" none none
        (course_search_execute c7_store "one" none none []).2).2
      = [⟨"Course A - Lesson 1", some "http://a/1"⟩]
    ∧ [(⟨"Course A - Lesson 1", some "http://a/1"⟩ : Source)] ≠ [] := by
  constructor
  · rfl
  · simp

/-- Witness for `c7_overwrite_and_reset`: two successful calls on a concrete
store, plus a reset over a concrete one-tool manager. -/
theorem c7_overwrite_and_reset_witness :
    (course_search_execute c7_store "one" none none
        (course_search_execute c7_store "one" none none
          [⟨"stale", none⟩]).2).2
      = (format_results c7_store (c7_store.search "one" none none)).2
    ∧ tool_manager_get_last_sources (tool_manager_reset_sources
        [⟨"search_course_content", fun _ => "", true, [⟨"s", none⟩]⟩]) = [] := by
  have h := c7_overwrite_and_reset c7_store "one" "one" none none none none
    [⟨"stale", none⟩]
    [⟨"search_course_content", fun _ => "", true, [⟨"s", none⟩]⟩]
    (by decide) (by decide)
  exact ⟨h.1, h.2.1⟩

/-- C8: `ToolManager.execute_tool` returns the sentinel
`Tool '<name>' not found` string (and does not raise) for a name with no
registered tool, and dispatches to the registered tool's `execute` with the
given parameters, returning its string result, otherwise. -/
theorem c8_execute_tool_dispatch (tools : List ManagedTool) (name : String)
    (kwargs : List (String × String)) :
    (tools.find? (fun t => t.name = name) = none →
      tool_manager_execute_tool tools name kwargs
        = "Tool \x27" ++ name ++ "\x27 not found")
    ∧ (∀ t, tools.find? (fun t => t.name = name) = some t →
      tool_manager_execute_tool tools name kwargs = t.exec kwargs) := by
  constructor
  · intro h
    simp [tool_manager_execute_tool, h]
  · intro t h
    simp [tool_manager_execute_tool, h]

/-- Witness for `c8_execute_tool_dispatch`: a manager with one registered
tool answers an unknown name with the sentinel string and a known name with
the tool's own result. -/
theorem c8_execute_tool_dispatch_witness :
    tool_manager_execute_tool
        [⟨"get_course_outline", fun _ => "outline text", false, []⟩]
        "missing_tool" []
      = "Tool \x27" ++ "missing_tool" ++ "\x27 not found"
    ∧ tool_manager_execute_tool
        [⟨"get_course_outline", fun _ => "outline text", false, []⟩]
        "get_course_outline" []
      = "outline text" := by
  constructor
  · exact (c8_execute_tool_dispatch
      [⟨"get_course_outline", fun _ => "outline text", false, []⟩]
      "missing_tool" []).1 (by rfl)
  · exact (c8_execute_tool_dispatch
      [⟨"get_course_outline", fun _ => "outline text", false, []⟩]
      "get_course_outline" []).2
      ⟨"get_course_outline", fun _ => "outline text", false, []⟩ (by rfl)

/-- The round loop never issues more calls than its remaining fuel plus the
single forced final call. -/
theorem generate_response_loop_length_le (respond : Nat → APIResponse)
    (hTM tT : Bool) :
    ∀ fuel i, ((generate_response_loop respond hTM tT i fuel).1).length
      ≤ fuel + 1 := by
  intro fuel
  induction fuel with
  | zero =>
    intro i
    simp [generate_response_loop]
  | succ n ih =>
    intro i
    simp only [generate_response_loop]
    by_cases h : ((respond i).stop_reason = "tool_use" ∧ hTM = true)
    · have hb : (decide ((respond i).stop_reason = "tool_use") && hTM) = true := by
        simp [h.1, h.2]
      simp only [hb, if_true]
      simpa using Nat.succ_le_succ (ih (i + 1))
    · have hb : (decide ((respond i).stop_reason = "tool_use") && hTM) = false := by
        cases hT : hTM with
        | false => simp
        | true =>
          have : ¬ (respond i).stop_reason = "tool_use" := fun hc => h ⟨hc, hT⟩
          simp [this]
      simp [hb]

/-- The round loop issues at most `fuel` calls with tool schemas attached:
the forced final call never attaches them. -/
theorem generate_response_loop_count_le (respond : Nat → APIResponse)
    (hTM tT : Bool) :
    ∀ fuel i, ((generate_response_loop respond hTM tT i fuel).1).count true
      ≤ fuel := by
  intro fuel
  induction fuel with
  | zero =>
    intro i
    simp [generate_response_loop]
  | succ n ih =>
    intro i
    simp only [generate_response_loop]
    by_cases h : ((respond i).stop_reason = "tool_use" ∧ hTM = true)
    · have hb : (decide ((respond i).stop_reason = "tool_use") && hTM) = true := by
        simp [h.1, h.2]
      simp only [hb, if_true]
      have := ih (i + 1)
      cases tT <;> simp [List.count_cons] <;> omega
    · have hb : (decide ((respond i).stop_reason = "tool_use") && hTM) = false := by
        cases hT : hTM with
        | false => simp
        | true =>
          have : ¬ (respond i).stop_reason = "tool_use" := fun hc => h ⟨hc, hT⟩
          simp [this]
      simp only [hb, Bool.false_eq_true, if_false]
      cases tT <;> simp [List.count_cons]

/-- When a tool manager is configured and every in-loop response requests
tool use, the loop exhausts its fuel and hands over to the forced final
call: the call log is `fuel` in-loop calls followed by the tool-free final
call, and the answer is the final call's text. -/
theorem generate_response_loop_exhausts (respond : Nat → APIResponse)
    (tT : Bool) :
    ∀ fuel i, (∀ j, j < fuel → (respond (i + j)).stop_reason = "tool_use") →
      generate_response_loop respond true tT i fuel
        = (List.replicate fuel tT ++ [false], (respond (i + fuel)).firstText) := by
  intro fuel
  induction fuel with
  | zero =>
    intro i _
    simp [generate_response_loop]
  | succ n ih =>
    intro i h
    have h0 : (respond i).stop_reason = "tool_use" := by
      simpa using h 0 (Nat.succ_pos n)
    have hrest : ∀ j, j < n → (respond (i + 1 + j)).stop_reason = "tool_use" := by
      intro j hj
      have := h (j + 1) (by omega)
      simpa [Nat.add_assoc, Nat.add_comm 1 j] using this
    simp only [generate_response_loop, h0, decide_True, Bool.and_self, if_true,
      ih (i + 1) hrest]
    have hidx : i + 1 + n = i + (n + 1) := by omega
    rw [hidx, List.replicate_succ]
    rfl

/-- C1: with `max_rounds = N ≥ 1`, `generate_response` issues at most `N`
model calls with tool schemas attached and at most `N + 1` model calls in
total, for every sequence of model responses; and when a tool manager is
configured, schemas are supplied, and all `N` in-loop responses request tool
use, it issues exactly `N` tool-bearing calls plus exactly one additional
final call with no tool schemas, returning that final call's text. -/
theorem c1_round_bound (respond : Nat → APIResponse) (hTM tT : Bool)
    (N : Nat) (_hN : 1 ≤ N) :
    ((generate_response respond hTM tT N).1.count true ≤ N
      ∧ (generate_response respond hTM tT N).1.length ≤ N + 1)
    ∧ (hTM = true → tT = true →
        (∀ i, i < N → (respond i).stop_reason = "tool_use") →
        (generate_response respond hTM tT N).1
          = List.replicate N true ++ [false]
        ∧ (generate_response respond hTM tT N).1.count true = N
        ∧ (generate_response respond hTM tT N).1.length = N + 1
        ∧ (generate_response respond hTM tT N).2 = (respond N).firstText) := by
  constructor
  · exact ⟨generate_response_loop_count_le respond hTM tT N 0,
      generate_response_loop_length_le respond hTM tT N 0⟩
  · intro hT hA hall
    subst hT
    subst hA
    have h := generate_response_loop_exhausts respond true N 0
      (by intro j hj; simpa using hall j hj)
    have h1 : (generate_response respond true true N).1
        = List.replicate N true ++ [false] := by
      simp [generate_response, h]
    have h2 : (generate_response respond true true N).2
        = (respond N).firstText := by
      simp [generate_response, h]
    refine ⟨h1, ?_, ?_, h2⟩
    · simp [h1, List.count_append, List.count_replicate]
    · simp [h1]

/-- Witness for `c1_round_bound` at `N = 2` and a model that always requests
tool use: exactly three calls, the first two tool-bearing, the last
tool-free, returning the third response's text. -/
theorem c1_round_bound_witness :
    (generate_response
        (fun _ => ⟨"tool_use", [⟨"tool_use", "id1", "search_course_content",
          [⟨"query", "q"⟩], ""⟩]⟩) true true 2).1
      = List.replicate 2 true ++ [false] := by
  have h := (c1_round_bound
      (fun _ => ⟨"tool_use", [⟨"tool_use", "id1", "search_course_content",
        [⟨"query", "q"⟩], ""⟩]⟩) true true 2 (by decide)).2
    rfl rfl (fun i _ => rfl)
  exact h.1

/-- C3: in a round whose response contains tool-use blocks, every requested
call is dispatched — an exception from one dispatch is caught and becomes
the `Tool execution error: ` payload without stopping the others — and the
round's results are appended to the history as a single user-turn message
whose i-th result carries the i-th tool-use block's id and that block's
dispatch outcome. -/
theorem c3_fault_isolated_dispatch
    (dispatch : String → List (String × String) → Except String String)
    (respContent : List ContentBlock) (messages : List Message)
    (h : tool_use_blocks respContent ≠ []) :
    execute_tools_and_update_messages dispatch respContent messages
      = messages
        ++ [⟨"assistant", MsgContent.blocks respContent⟩,
            ⟨"user", MsgContent.results
              ((tool_use_blocks respContent).map (tool_result_for dispatch))⟩]
    ∧ ((tool_use_blocks respContent).map (tool_result_for dispatch)).length
        = (tool_use_blocks respContent).length
    ∧ ∀ (i : Nat) (hi : i < (tool_use_blocks respContent).length),
        ((tool_use_blocks respContent).map (tool_result_for dispatch)).getD i
            ⟨"", "", ""⟩
          = ⟨"tool_result",
              ((tool_use_blocks respContent).get ⟨i, hi⟩).id,
              match dispatch ((tool_use_blocks respContent).get ⟨i, hi⟩).name
                  ((tool_use_blocks respContent).get ⟨i, hi⟩).input with
              | Except.ok r => r
              | Except.error e => "Tool execution error: " ++ e⟩ := by
  refine ⟨?_, by simp, ?_⟩
  · have hne : ((tool_use_blocks respContent).map
        (tool_result_for dispatch)).isEmpty = false := by
      simp [List.isEmpty_iff, h]
    simp [execute_tools_and_update_messages, hne]
  · intro i hi
    have hi2 : i < ((tool_use_blocks respContent).map
        (tool_result_for dispatch)).length := by
      simpa using hi
    rw [List.getD_eq_get _ _ hi2]
    simp only [List.get_eq_getElem, List.getElem_map]
    cases hdp : dispatch ((tool_use_blocks respContent)[i].name)
        ((tool_use_blocks respContent)[i].input) with
    | ok r => simp [tool_result_for, hdp]
    | error e => simp [tool_result_for, hdp]

/-- Dispatcher for the C3 witness: the tool named `bad` raises, every other
tool returns a normal string result. -/
def c3_dispatch : String → List (String × String) → Except String String :=
  fun n _ => if n = "bad" then Except.error "boom" else Except.ok ("ok:" ++ n)

/-- Response content for the C3 witness: two tool-use blocks (the second of
which will raise) around a plain text block. -/
def c3_content : List ContentBlock :=
  [⟨"tool_use", "id1", "good", [], ""⟩,
   ⟨"text", "", "", [], "thinking"⟩,
   ⟨"tool_use", "id2", "bad", [], ""⟩]

/-- Witness for `c3_fault_isolated_dispatch` at a concrete round in which one
of two requested tools raises. -/
theorem c3_fault_isolated_dispatch_witness :
    execute_tools_and_update_messages c3_dispatch c3_content
        [⟨"user", MsgContent.text "q"⟩]
      = [⟨"user", MsgContent.text "q"⟩]
        ++ [⟨"assistant", MsgContent.blocks c3_content⟩,
            ⟨"user", MsgContent.results
              ((tool_use_blocks c3_content).map (tool_result_for c3_dispatch))⟩] :=
  (c3_fault_isolated_dispatch c3_dispatch c3_content
    [⟨"user", MsgContent.text "q"⟩] (by decide)).1

end RagSpec
